import Mathlib

/-!
Shallow embedding of `src/server.py` (an MCP weather server wrapping the
Open-Meteo HTTP API) and proofs about its tool functions.

Modelling conventions:
* JSON values returned by `response.json()` are the inductive `Json` below;
  numbers are rationals (every JSON numeral denotes a rational).
* `make_openmeteo_request` returns `Option Json`: `none` is the Python `None`
  produced by its blanket `except` clause.
* Each tool is embedded as a pure function of its inputs plus the fetch
  result(s) it would obtain from the network, mirroring the Python body
  line by line.  Tools whose body can raise (list subscripting `[0]`,
  ordered comparison of a non-number) return `Except PyErr String`.
* Python truthiness (`if not data`, `if admin1`, `if weather_code`) is
  `Json.truthy`; `.get(k)` with no default yields `Json.null` for a missing
  key, matching Python's `None`.
* f-string interpolation of a value is `pyStr`.  The exact decimal rendering
  of Python floats is not observable by any property proved here; `pyStr` on
  numbers and containers is therefore a fixed abstract rendering (claims only
  ever interpolate strings), while the `.4f` format used by
  `search_locations` is embedded exactly as `format4`.
* The backend sections (`current`, `daily`, `results`) are JSON objects and
  arrays per the Open-Meteo contract; the embedding reads them with the
  tolerant accessors below, and models the subscripting / comparison faults
  the Python code can actually hit on array-shaped data.
-/

/-- A JSON value as produced by `response.json()`. -/
inductive Json where
  | null
  | bool (b : Bool)
  | num (q : Rat)
  | str (s : String)
  | arr (elems : List Json)
  | obj (fields : List (String × Json))

/-- Python exceptions that the embedded tool bodies can raise. -/
inductive PyErr where
  | indexError
  | typeError
deriving DecidableEq

/-- Key lookup in a JSON object (Python `dict` lookup; keys are unique, first
match suffices). Non-objects have no keys. -/
def Json.find : Json → String → Option Json
  | .obj fields, k => fields.lookup k
  | _, _ => none

/-- Python `d.get(k)`: `None` when the key is missing. -/
def Json.get (j : Json) (k : String) : Json :=
  (j.find k).getD .null

/-- Python `d.get(k, default)`. -/
def Json.getD (j : Json) (k : String) (d : Json) : Json :=
  (j.find k).getD d

/-- Python truthiness of a JSON value. -/
def Json.truthy : Json → Bool
  | .null => false
  | .bool b => b
  | .num q => q != 0
  | .str s => s != ""
  | .arr xs => !xs.isEmpty
  | .obj fs => !fs.isEmpty

/-- Python `x is None` for a JSON value. -/
def Json.isNull : Json → Bool
  | .null => true
  | _ => false

/-- The elements of a JSON array (the tools iterate / index the backend's
parallel arrays; non-arrays do not occur in the shapes the claims range
over). -/
def Json.asArr : Json → List Json
  | .arr xs => xs
  | _ => []

/-- Truthiness of the fetch result: Python `not data` where `data` is the
value returned by `make_openmeteo_request` (`None` or parsed JSON). -/
def fetchFalsy : Option Json → Bool
  | none => true
  | some j => !j.truthy

/-- Python `xs[0]`: first element, `IndexError` on an empty sequence,
`TypeError` on a non-sequence.  A non-empty string is subscriptable and
yields its first character as a one-character string. -/
def pySub0 : Json → Except PyErr Json
  | .arr [] => .error .indexError
  | .arr (x :: _) => .ok x
  | .str s =>
      match s.data with
      | [] => .error .indexError
      | c :: _ => .ok (.str (String.mk [c]))
  | _ => .error .typeError

/-- Abstract rendering of a rational in an f-string.  Python prints the
shortest round-tripping decimal of the underlying float; no proved property
observes this rendering, so integers print exactly and other rationals use
the `Rat` printer. -/
def ratRepr (q : Rat) : String :=
  if q.den = 1 then toString q.num else toString q

/-- Python `f"..."` interpolation of a JSON value.  Containers render via
`repr` in Python; no proved property interpolates a container, so they get a
fixed placeholder here. -/
def pyStr : Json → String
  | .null => "None"
  | .bool true => "True"
  | .bool false => "False"
  | .num q => ratRepr q
  | .str s => s
  | .arr _ => "[object]"
  | .obj _ => "[object]"

/-- The numeric value of a JSON value for ordered comparison with a number:
Python compares numbers and `bool`s (ints) with ints, and raises `TypeError`
on anything else. -/
def jsonNumVal : Json → Option Rat
  | .num q => some q
  | .bool b => some (if b then 1 else 0)
  | _ => none

/-- Python `v == n` for an int `n` (used by `in [95, 96, 99]`): numeric
cross-type equality, `False` for non-numbers, never an error. -/
def jsonEqInt (v : Json) (n : Int) : Bool :=
  match v with
  | .num q => q = (n : Rat)
  | .bool b => (if b then (1 : Int) else 0) = n
  | _ => false

/-- `WEATHER_CODES` from `server.py` lines 16-45. -/
def WEATHER_CODES : List (Int × String) :=
  [(0, "Clear sky"), (1, "Mainly clear"), (2, "Partly cloudy"), (3, "Overcast"),
   (45, "Fog"), (48, "Depositing rime fog"),
   (51, "Light drizzle"), (53, "Moderate drizzle"), (55, "Dense drizzle"),
   (56, "Light freezing drizzle"), (57, "Dense freezing drizzle"),
   (61, "Slight rain"), (63, "Moderate rain"), (65, "Heavy rain"),
   (66, "Light freezing rain"), (67, "Heavy freezing rain"),
   (71, "Slight snow fall"), (73, "Moderate snow fall"), (75, "Heavy snow fall"),
   (77, "Snow grains"),
   (80, "Slight rain showers"), (81, "Moderate rain showers"), (82, "Violent rain showers"),
   (85, "Slight snow showers"), (86, "Heavy snow showers"),
   (95, "Thunderstorm"), (96, "Thunderstorm with slight hail"),
   (99, "Thunderstorm with heavy hail")]

/-- Python `WEATHER_CODES.get(v, 'Unknown')`: the dict is keyed by ints, and
Python dict lookup finds a key for any value numerically equal to it
(`0.0`, `True`, ...); any other value is simply not a key. -/
def weatherCodeLookup (v : Json) : String :=
  match v with
  | .num q => if q.den = 1 then (WEATHER_CODES.lookup q.num).getD "Unknown" else "Unknown"
  | .bool b => (WEATHER_CODES.lookup (if b then 1 else 0)).getD "Unknown"
  | _ => "Unknown"

/-- The outcome of the HTTP GET performed by `make_openmeteo_request`:
either a 2xx response whose body parsed as JSON, or one of the failure
modes that raise inside the `try` block (`response.json()` parse failure,
`raise_for_status` on a non-success status, transport error / timeout). -/
inductive HttpOutcome where
  | success (body : Json)
  | parseFailure
  | statusFailure (code : Nat)
  | transportFailure

/-- `make_openmeteo_request` (`server.py` lines 48-60): returns the parsed
body on success and `None` on any exception. -/
def make_openmeteo_request : HttpOutcome → Option Json
  | .success body => some body
  | .parseFailure => none
  | .statusFailure _ => none
  | .transportFailure => none

/-- `get_current_weather` (`server.py` lines 62-94), as a function of the
fetch result for its forecast URL. -/
def get_current_weather (fetch : Option Json) : String :=
  if fetchFalsy fetch then "Unable to fetch current weather data for this location."
  else
    let data := fetch.getD .null
    let current := data.getD "current" (.obj [])
    "Current Weather:\nTemperature: " ++ pyStr (current.getD "temperature_2m" (.str "N/A")) ++
    "°C\nFeels like: " ++ pyStr (current.getD "apparent_temperature" (.str "N/A")) ++
    "°C\nHumidity: " ++ pyStr (current.getD "relative_humidity_2m" (.str "N/A")) ++
    "%\nWind Speed: " ++ pyStr (current.getD "wind_speed_10m" (.str "N/A")) ++
    " km/h\nWind Direction: " ++ pyStr (current.getD "wind_direction_10m" (.str "N/A")) ++
    "°\nPressure: " ++ pyStr (current.getD "pressure_msl" (.str "N/A")) ++
    " hPa\nCloud Cover: " ++ pyStr (current.getD "cloud_cover" (.str "N/A")) ++
    "%\nPrecipitation: " ++ pyStr (current.getD "precipitation" (.str "N/A")) ++
    " mm\nRain: " ++ pyStr (current.getD "rain" (.str "N/A")) ++
    " mm\nSnow: " ++ pyStr (current.getD "snowfall" (.str "N/A")) ++
    " mm\nWeather: " ++ weatherCodeLookup (current.get "weather_code")

/-- The `.4f` format specifier applied to a number (`f"... Lat: \x7blat:.4f\x7d ..."`
in `search_locations`): four decimal places of the absolute value, round
half to even, sign prefixed — computed on the numerator and denominator
(`|q| * 10000 = (a * 10000) / d`, so the floor is `a * 10000 / d` and the
fractional part compares to 1/2 as `2 * rem` compares to `d`).  Applying it
to a non-number raises in Python. -/
def format4 (q : Rat) : String :=
  let a : Nat := q.num.natAbs
  let d : Nat := q.den
  let fl : Nat := a * 10000 / d
  let rem : Nat := a * 10000 % d
  let n : Nat :=
    if d < 2 * rem then fl + 1
    else if 2 * rem < d then fl
    else if fl % 2 = 0 then fl else fl + 1
  let rs := toString (n % 10000)
  (if q < 0 then "-" else "") ++ toString (n / 10000) ++ "." ++
    String.mk (List.replicate (4 - rs.length) '0') ++ rs

/-- `f"\x7bv:.4f\x7d"` on a JSON value: numbers (and bools, which format as
ints) format; any other value raises. -/
def fmt4 : Json → Except PyErr String
  | .num q => .ok (format4 q)
  | .bool b => .ok (format4 (if b then 1 else 0))
  | _ => .error .typeError

/-- One iteration of the `for result in data['results']` loop of
`search_locations` (`server.py` lines 111-122). -/
def locationLine (result : Json) : Except PyErr String := do
  let name := result.getD "name" (.str "Unknown")
  let country := result.getD "country" (.str "Unknown")
  let admin1 := result.getD "admin1" (.str "")
  let lat ← fmt4 (result.getD "latitude" (.num 0))
  let lon ← fmt4 (result.getD "longitude" (.num 0))
  let base := pyStr name
  let base := if admin1.truthy then base ++ ", " ++ pyStr admin1 else base
  .ok (base ++ ", " ++ pyStr country ++ " (Lat: " ++ lat ++ ", Lon: " ++ lon ++ ")")

/-- `search_locations` (`server.py` lines 97-124), as a function of the
fetch result for its geocoding URL. -/
def search_locations (query : String) (fetch : Option Json) : Except PyErr String :=
  let data := fetch.getD .null
  if fetchFalsy fetch || !(data.get "results").truthy then
    .ok ("No locations found for '" ++ query ++ "'")
  else do
    let lines ← (data.get "results").asArr.mapM locationLine
    .ok ("Found locations:\n" ++ String.intercalate "\n" lines)

/-- `days = max(1, min(days, 16))` (`server.py` line 136). -/
def clampDays (days : Int) : Int := max 1 (min days 16)

/-- The per-field defensive indexing of the forecast loop:
`daily.get(k, [])[i] if i < len(daily.get(k, [])) else dflt`
(`server.py` lines 151-155). -/
def fieldAt (daily : Json) (k : String) (i : Nat) (dflt : Json) : Json :=
  (daily.getD k (.arr [])).asArr.getD i dflt

/-- One line of the forecast report (`server.py` lines 149-159). -/
def forecastLine (daily : Json) (dates : List Json) (i : Nat) : String :=
  let date := dates.getD i .null
  let weather_code := fieldAt daily "weather_code" i .null
  let temp_max := fieldAt daily "temperature_2m_max" i (.str "N/A")
  let temp_min := fieldAt daily "temperature_2m_min" i (.str "N/A")
  let precipitation := fieldAt daily "precipitation_sum" i (.str "N/A")
  let wind_speed := fieldAt daily "wind_speed_10m_max" i (.str "N/A")
  let weather_desc := if weather_code.truthy then weatherCodeLookup weather_code else "Unknown"
  pyStr date ++ ": " ++ weather_desc ++ ", " ++ pyStr temp_min ++ "°C - " ++
    pyStr temp_max ++ "°C, Rain: " ++ pyStr precipitation ++ "mm, Wind: " ++
    pyStr wind_speed ++ "km/h"

/-- `get_weather_forecast` (`server.py` lines 127-161), as a function of the
`days` argument and the fetch result. -/
def get_weather_forecast (days : Int) (fetch : Option Json) : String :=
  let days := clampDays days
  if fetchFalsy fetch then "Unable to fetch forecast data for this location."
  else
    let data := fetch.getD .null
    let daily := data.getD "daily" (.obj [])
    let dates := (daily.getD "time" (.arr [])).asArr
    let lines := (List.range dates.length).map (forecastLine daily dates)
    String.intercalate "\n" (("Weather Forecast for " ++ toString days ++ " days:") :: lines)

/-- Alert line for the current temperature (`server.py` lines 188-192):
`if temp is not None: if temp >= 35 ... elif temp <= -20 ...`. -/
def tempAlerts (temp : Json) : Except PyErr (List String) :=
  match temp with
  | .null => .ok []
  | v =>
    match jsonNumVal v with
    | some q =>
        .ok (if 35 ≤ q then ["🔥 HEAT WARNING: Extreme temperature detected"]
             else if q ≤ -20 then ["🥶 COLD WARNING: Extreme cold temperature detected"]
             else [])
    | none => .error .typeError

/-- Alert line for the current wind speed (`server.py` lines 194-195). -/
def windAlerts (wind_speed : Json) : Except PyErr (List String) :=
  match wind_speed with
  | .null => .ok []
  | v =>
    match jsonNumVal v with
    | some q => .ok (if 60 ≤ q then ["💨 WIND WARNING: High wind speeds detected"] else [])
    | none => .error .typeError

/-- Alert line for the current precipitation (`server.py` lines 197-198). -/
def precipAlerts (precipitation : Json) : Except PyErr (List String) :=
  match precipitation with
  | .null => .ok []
  | v =>
    match jsonNumVal v with
    | some q => .ok (if 20 ≤ q then ["🌧️ PRECIPITATION WARNING: Heavy precipitation detected"] else [])
    | none => .error .typeError

/-- Alert line for the current weather code (`server.py` lines 200-201):
`if weather_code in [95, 96, 99]` — membership by `==`, no error for any
value (`None in [...]` is `False`). -/
def thunderAlerts (weather_code : Json) : List String :=
  if jsonEqInt weather_code 95 || jsonEqInt weather_code 96 || jsonEqInt weather_code 99 then
    ["⛈️ THUNDERSTORM WARNING: Thunderstorm conditions detected"]
  else []

/-- `get_weather_alerts` (`server.py` lines 164-206), as a function of the
fetch result.  Only the `current` section of the response is ever read; the
`hourly` fields requested by the URL are unused. -/
def get_weather_alerts (fetch : Option Json) : Except PyErr String :=
  if fetchFalsy fetch then .ok "Unable to fetch weather alert data for this location."
  else
    let data := fetch.getD .null
    let current := data.getD "current" (.obj [])
    match tempAlerts (current.get "temperature_2m"),
          windAlerts (current.get "wind_speed_10m"),
          precipAlerts (current.get "precipitation") with
    | .ok a1, .ok a2, .ok a3 =>
        let alerts := a1 ++ a2 ++ a3 ++ thunderAlerts (current.get "weather_code")
        if alerts.isEmpty then .ok "✅ No weather alerts or warnings for this location."
        else .ok ("Weather Alerts:\n" ++ String.intercalate "\n" alerts)
    | .error e, _, _ => .error e
    | _, .error e, _ => .error e
    | _, _, .error e => .error e

/-- `get_weather_by_city` (`server.py` lines 209-255), as a function of the
city name and the two fetch results (geocoding, then current weather). -/
def get_weather_by_city (city_name : String) (geo : Option Json) (wfetch : Option Json) : String :=
  let ldata := geo.getD .null
  if fetchFalsy geo || !(ldata.get "results").truthy then
    "City '" ++ city_name ++ "' not found. Please check the spelling and try again."
  else
    let location := (ldata.get "results").asArr.getD 0 .null
    let latitude := location.get "latitude"
    let longitude := location.get "longitude"
    let name := location.get "name"
    let country := location.get "country"
    if latitude.isNull || longitude.isNull then
      "Could not get coordinates for '" ++ city_name ++ "'"
    else if fetchFalsy wfetch then
      "Unable to fetch weather data for " ++ pyStr name ++ ", " ++ pyStr country ++ "."
    else
      let current := (wfetch.getD .null).getD "current" (.obj [])
      let weather_code := current.get "weather_code"
      let weather_desc := if weather_code.truthy then weatherCodeLookup weather_code else "Unknown"
      "Weather in " ++ pyStr name ++ ", " ++ pyStr country ++ ":\nWeather: " ++ weather_desc ++
      "\nTemperature: " ++ pyStr (current.getD "temperature_2m" (.str "N/A")) ++
      "°C\nFeels like: " ++ pyStr (current.getD "apparent_temperature" (.str "N/A")) ++
      "°C\nHumidity: " ++ pyStr (current.getD "relative_humidity_2m" (.str "N/A")) ++
      "%\nWind Speed: " ++ pyStr (current.getD "wind_speed_10m" (.str "N/A")) ++
      " km/h\nWind Direction: " ++ pyStr (current.getD "wind_direction_10m" (.str "N/A")) ++
      "°\nPressure: " ++ pyStr (current.getD "pressure_msl" (.str "N/A")) ++
      " hPa\nCloud Cover: " ++ pyStr (current.getD "cloud_cover" (.str "N/A")) ++
      "%\nPrecipitation: " ++ pyStr (current.getD "precipitation" (.str "N/A")) ++ " mm"

/-- Python `str.lower()`.  (Python lowercases full Unicode; the markers and
templates involved are ASCII, which `Char.toLower` covers.) -/
def pyLower (s : String) : String := String.mk (s.data.map Char.toLower)

/-- Python `str.upper()` (ASCII, as for `pyLower`). -/
def pyUpper (s : String) : String := String.mk (s.data.map Char.toUpper)

/-- Substring containment over character lists (Python `pat in s`). -/
def listContainsSub (pat : List Char) : List Char → Bool
  | [] => pat.isEmpty
  | c :: rest => pat.isPrefixOf (c :: rest) || listContainsSub pat rest

/-- Python `pat in s` for strings. -/
def strContains (s pat : String) : Bool :=
  listContainsSub pat.data s.data

/-- The failure test `compare_weather_cities` applies to each per-city
report (`server.py` lines 270 and 273):
`"not found" in w.lower() or "unable to fetch" in w.lower()`. -/
def cityFailureMarker (w : String) : Bool :=
  strContains (pyLower w) "not found" || strContains (pyLower w) "unable to fetch"

/-- `compare_weather_cities` (`server.py` lines 258-284), as a function of
the two city names and the two per-city reports returned by
`get_weather_by_city`. -/
def compare_weather_cities (city1 city2 weather1 weather2 : String) : String :=
  if cityFailureMarker weather1 then
    "Could not get weather data for " ++ city1 ++ ": " ++ weather1
  else if cityFailureMarker weather2 then
    "Could not get weather data for " ++ city2 ++ ": " ++ weather2
  else
    "Weather Comparison:\n\n📍 " ++ pyUpper city1 ++ ":\n" ++ weather1 ++
    "\n\n📍 " ++ pyUpper city2 ++ ":\n" ++ weather2

/-- A proleptic-Gregorian calendar date as used by `datetime.date`. -/
structure PyDate where
  year : Nat
  month : Nat
  day : Nat
deriving DecidableEq

/-- `datetime.date` comparison: lexicographic on (year, month, day). -/
def PyDate.le (a b : PyDate) : Bool :=
  a.year < b.year ||
  (a.year = b.year && (a.month < b.month ||
    (a.month = b.month && a.day ≤ b.day)))

/-- Gregorian leap year, as `datetime` computes it. -/
def isLeap (y : Nat) : Bool :=
  y % 4 = 0 && (y % 100 ≠ 0 || y % 400 = 0)

/-- Days in a month of a given year, as `datetime` computes it. -/
def daysInMonth (y m : Nat) : Nat :=
  if m = 2 then (if isLeap y then 29 else 28)
  else if m = 4 || m = 6 || m = 9 || m = 11 then 30
  else 31

/-- Numeric value of an all-digit character group (`int(...)` on a matched
group). -/
def charsToNat (cs : List Char) : Nat :=
  cs.foldl (fun n c => n * 10 + (c.toNat - 48)) 0

/-- Split a character list at every `'-'` (the literal separators of the
`'%Y-%m-%d'` pattern; `str.splitOn('-')` semantics for a one-character
separator). -/
def splitDash : List Char → List (List Char)
  | [] => [[]]
  | c :: rest =>
    if c = '-' then [] :: splitDash rest
    else
      match splitDash rest with
      | [] => [[c]]
      | g :: gs => (c :: g) :: gs

/-- The `%Y` group of `strptime`: exactly four digits. -/
def matchYear (cs : List Char) : Option Nat :=
  if cs.length = 4 && cs.all (·.isDigit) then some (charsToNat cs) else none

/-- The `%m` / `%d` groups of `strptime`: one or two digits, value between 1
and `hi` (12 for months, 31 for days); `"0"` and `"00"` do not match. -/
def matchMD (cs : List Char) (hi : Nat) : Option Nat :=
  if (cs.length = 1 || cs.length = 2) && cs.all (·.isDigit) then
    let v := charsToNat cs
    if 1 ≤ v && v ≤ hi then some v else none
  else none

/-- `datetime.strptime(date, '%Y-%m-%d')` (`server.py` line 298): the format
compiles to the anchored pattern `\d\d\d\d-(%m)-(%d)` matching the whole
string, then `datetime(year, month, day)` checks the calendar (day within
the month, year at least 1).  `some` is a successful parse, `none` the
`ValueError` path.  (Python's `\d` and `int()` also accept non-ASCII decimal
digits; the embedding covers the ASCII digits the format targets, and the
theorems about it restrict their inputs accordingly.) -/
def strptimeYMD (s : String) : Option PyDate :=
  match splitDash s.data with
  | [ys, ms, ds] =>
    match matchYear ys, matchMD ms 12, matchMD ds 31 with
    | some y, some m, some d =>
        if 1 ≤ y && d ≤ daysInMonth y m then some ⟨y, m, d⟩ else none
    | _, _, _ => none
  | _ => none

/-- Modelled from the spec: "Validates date as a strict YYYY-MM-DD calendar
date" — a zero-padded four-digit year, two-digit month and two-digit day
forming a valid calendar date.  This is the spec's reading of the
validation, stated for comparison with `strptimeYMD`, the code's actual
check. -/
def isStrictYMD (s : String) : Bool :=
  match splitDash s.data with
  | [ys, ms, ds] =>
    ys.length = 4 && ms.length = 2 && ds.length = 2 &&
    ys.all (·.isDigit) && ms.all (·.isDigit) && ds.all (·.isDigit) &&
    1 ≤ charsToNat ys &&
    1 ≤ charsToNat ms && charsToNat ms ≤ 12 &&
    1 ≤ charsToNat ds && charsToNat ds ≤ daysInMonth (charsToNat ys) (charsToNat ms)
  | _ => false

/-- The pre-network part of `get_historical_weather` (`server.py` lines
296-307): `some msg` is an early return before any fetch, `none` means the
call proceeds to the archive request.  `today` is `datetime.now().date()`. -/
def historicalPreflight (today : PyDate) (date : String) : Option String :=
  match strptimeYMD date with
  | none => some "Invalid date format. Please use YYYY-MM-DD format."
  | some d =>
      if PyDate.le today d then some "Historical weather data is only available for past dates."
      else none

/-- The post-fetch part of `get_historical_weather` (`server.py` lines
311-333).  Each per-field extraction is `daily.get(k, [dflt])[0]`: the
default list protects only a *missing* key — a present but empty array makes
`[0]` raise `IndexError`. -/
def historicalFormat (date : String) (fetch : Option Json) : Except PyErr String :=
  if fetchFalsy fetch then .ok ("Unable to fetch historical weather data for " ++ date ++ ".")
  else
    let data := fetch.getD .null
    let daily := data.getD "daily" (.obj [])
    if !(daily.get "time").truthy then .ok ("No historical data available for " ++ date ++ ".")
    else do
      let weather_code ← pySub0 (daily.getD "weather_code" (.arr [.null]))
      let temp_max ← pySub0 (daily.getD "temperature_2m_max" (.arr [.str "N/A"]))
      let temp_min ← pySub0 (daily.getD "temperature_2m_min" (.arr [.str "N/A"]))
      let precipitation ← pySub0 (daily.getD "precipitation_sum" (.arr [.str "N/A"]))
      let wind_speed ← pySub0 (daily.getD "wind_speed_10m_max" (.arr [.str "N/A"]))
      let weather_desc := if weather_code.truthy then weatherCodeLookup weather_code else "Unknown"
      .ok ("Historical Weather for " ++ date ++ ":\nWeather: " ++ weather_desc ++
           "\nTemperature: " ++ pyStr temp_min ++ "°C - " ++ pyStr temp_max ++
           "°C\nPrecipitation: " ++ pyStr precipitation ++
           " mm\nMax Wind Speed: " ++ pyStr wind_speed ++ " km/h")

/-- `get_historical_weather` (`server.py` lines 287-333), as a function of
today's date, the date argument and the fetch result for the archive URL. -/
def get_historical_weather (today : PyDate) (date : String) (fetch : Option Json) :
    Except PyErr String :=
  match historicalPreflight today date with
  | some msg => .ok msg
  | none => historicalFormat date fetch

example : get_current_weather none = "Unable to fetch current weather data for this location." := rfl
example : strptimeYMD "2020-01-01" = some ⟨2020, 1, 1⟩ := by decide
example : strptimeYMD "2020-1-1" = some ⟨2020, 1, 1⟩ := by decide
example : strptimeYMD "not-a-date" = none := by decide
example : strptimeYMD "2021-02-29" = none := by decide
example : strptimeYMD "2020-02-29" = some ⟨2020, 2, 29⟩ := by decide
example : strptimeYMD "0000-01-01" = none := by decide
example : strptimeYMD "2020-13-01" = none := by decide
example : strptimeYMD "2020-01-32" = none := by decide
example : strptimeYMD "202-01-01" = none := by decide
example : strptimeYMD "2020-01-01 " = none := by decide
example : isStrictYMD "2020-1-1" = false := by decide
example : isStrictYMD "2020-01-01" = true := by decide

/-- C1: the claim says every tool returns a descriptive string on every
backend response shape, and in particular that `get_historical_weather`
survives a response whose `time` list is non-empty but whose `weather_code`
list is empty.  The code does not: `daily.get('weather_code', [None])[0]`
only defaults a *missing* key, so a present-but-empty array makes `[0]`
raise `IndexError`.  This theorem evaluates the embedded tool at that
failing response. -/
theorem historical_empty_field_index_error :
    get_historical_weather ⟨2025, 1, 1⟩ "2020-01-01"
      (some (.obj [("daily", .obj [("time", .arr [.str "2020-01-01"]),
                                   ("weather_code", .arr [])])]))
      = .error .indexError := rfl

/-- C2: the claim says every formatter renders the table description for
every code in `WEATHER_CODES`, including code 0 ("Clear sky").  The table
does map 0 to "Clear sky", and `get_current_weather` renders it; but
`get_weather_forecast`, `get_weather_by_city` and `get_historical_weather`
guard the lookup with `if weather_code`, and Python's `0` is falsy, so they
render "Unknown" for code 0.  (Codes not in the table, e.g. 999, do render
"Unknown" everywhere, and non-zero table codes, e.g. 3, render their
description.) -/
theorem weather_code_zero_divergence :
    WEATHER_CODES.lookup 0 = some "Clear sky"
    ∧ get_current_weather (some (.obj [("current", .obj [("weather_code", .num 0)])]))
        = "Current Weather:\nTemperature: N/A°C\nFeels like: N/A°C\nHumidity: N/A%\nWind Speed: N/A km/h\nWind Direction: N/A°\nPressure: N/A hPa\nCloud Cover: N/A%\nPrecipitation: N/A mm\nRain: N/A mm\nSnow: N/A mm\nWeather: Clear sky"
    ∧ get_weather_forecast 1 (some (.obj [("daily", .obj [("time", .arr [.str "2024-01-01"]), ("weather_code", .arr [.num 0])])]))
        = "Weather Forecast for 1 days:\n2024-01-01: Unknown, N/A°C - N/A°C, Rain: N/Amm, Wind: N/Akm/h"
    ∧ get_weather_by_city "Oslo"
        (some (.obj [("results", .arr [.obj [("latitude", .num 59), ("longitude", .num 10), ("name", .str "Oslo"), ("country", .str "Norway")]])]))
        (some (.obj [("current", .obj [("weather_code", .num 0)])]))
        = "Weather in Oslo, Norway:\nWeather: Unknown\nTemperature: N/A°C\nFeels like: N/A°C\nHumidity: N/A%\nWind Speed: N/A km/h\nWind Direction: N/A°\nPressure: N/A hPa\nCloud Cover: N/A%\nPrecipitation: N/A mm"
    ∧ get_historical_weather ⟨2025, 1, 1⟩ "2020-06-01"
        (some (.obj [("daily", .obj [("time", .arr [.str "2020-06-01"]), ("weather_code", .arr [.num 0])])]))
        = .ok "Historical Weather for 2020-06-01:\nWeather: Unknown\nTemperature: N/A°C - N/A°C\nPrecipitation: N/A mm\nMax Wind Speed: N/A km/h"
    ∧ get_weather_forecast 1 (some (.obj [("daily", .obj [("time", .arr [.str "2024-01-01"]), ("weather_code", .arr [.num 999])])]))
        = "Weather Forecast for 1 days:\n2024-01-01: Unknown, N/A°C - N/A°C, Rain: N/Amm, Wind: N/Akm/h"
    ∧ get_weather_forecast 1 (some (.obj [("daily", .obj [("time", .arr [.str "2024-01-01"]), ("weather_code", .arr [.num 3])])]))
        = "Weather Forecast for 1 days:\n2024-01-01: Overcast, N/A°C - N/A°C, Rain: N/Amm, Wind: N/Akm/h" :=
  ⟨rfl, rfl, rfl, rfl, rfl, rfl, rfl⟩

/-- C3: whenever the fetcher yields the absence value (`None`), each tool
returns its designated fixed fallback string, and the absence value is the
only error signal `make_openmeteo_request` can produce (any non-success
outcome maps to `none`, a success maps to `some body`). -/
theorem fetch_absence_fallbacks :
    (∀ o : HttpOutcome, make_openmeteo_request o = none
        ∨ ∃ b, o = .success b ∧ make_openmeteo_request o = some b)
    ∧ get_current_weather none = "Unable to fetch current weather data for this location."
    ∧ (∀ q, search_locations q none = .ok ("No locations found for '" ++ q ++ "'"))
    ∧ (∀ d, get_weather_forecast d none = "Unable to fetch forecast data for this location.")
    ∧ get_weather_alerts none = .ok "Unable to fetch weather alert data for this location."
    ∧ (∀ c, get_weather_by_city c none none
        = "City '" ++ c ++ "' not found. Please check the spelling and try again.")
    ∧ (∀ city name country lat lon,
        get_weather_by_city city
          (some (.obj [("results", .arr [.obj [("latitude", .num lat), ("longitude", .num lon), ("name", .str name), ("country", .str country)]])]))
          none
        = "Unable to fetch weather data for " ++ name ++ ", " ++ country ++ ".")
    ∧ get_historical_weather ⟨2025, 1, 1⟩ "2020-01-01" none
        = .ok "Unable to fetch historical weather data for 2020-01-01."
    ∧ compare_weather_cities "Paris" "London"
        (get_weather_by_city "Paris" none none) (get_weather_by_city "London" none none)
        = "Could not get weather data for Paris: City 'Paris' not found. Please check the spelling and try again." :=
  ⟨fun o => match o with
    | .success b => Or.inr ⟨b, rfl, rfl⟩
    | .parseFailure => Or.inl rfl
    | .statusFailure _ => Or.inl rfl
    | .transportFailure => Or.inl rfl,
   rfl, fun _ => rfl, fun _ => rfl, rfl, fun _ => rfl,
   fun _ _ _ _ _ => rfl, rfl, rfl⟩

/-- C4: `compare_weather_cities` classifies a per-city report as failed
exactly when its lowercased text contains "not found" or "unable to fetch"
(the `cityFailureMarker` test), returns the "Could not get weather data"
message naming the first failing city, and on double success emits both full
reports headed by the uppercased input city names, city1 first. -/
theorem compare_cities_classification (c1 c2 w1 w2 : String) :
    (cityFailureMarker w1 = true →
      compare_weather_cities c1 c2 w1 w2
        = "Could not get weather data for " ++ c1 ++ ": " ++ w1)
    ∧ (cityFailureMarker w1 = false → cityFailureMarker w2 = true →
      compare_weather_cities c1 c2 w1 w2
        = "Could not get weather data for " ++ c2 ++ ": " ++ w2)
    ∧ (cityFailureMarker w1 = false → cityFailureMarker w2 = false →
      compare_weather_cities c1 c2 w1 w2
        = "Weather Comparison:\n\n📍 " ++ pyUpper c1 ++ ":\n" ++ w1 ++
          "\n\n📍 " ++ pyUpper c2 ++ ":\n" ++ w2) := by
  refine ⟨fun h1 => ?_, fun h1 h2 => ?_, fun h1 h2 => ?_⟩ <;>
    simp [compare_weather_cities, h1]
  · simp [h2]
  · simp [h2]

theorem compare_cities_classification_witness :
    compare_weather_cities "Paris" "London" "Sunny report" "Rainy report"
      = "Weather Comparison:\n\n📍 " ++ pyUpper "Paris" ++ ":\n" ++ "Sunny report" ++
        "\n\n📍 " ++ pyUpper "London" ++ ":\n" ++ "Rainy report" :=
  (compare_cities_classification "Paris" "London" "Sunny report" "Rainy report").2.2 rfl rfl



theorem daysInMonth_le_31 (y m : Nat) : daysInMonth y m ≤ 31 := by
  unfold daysInMonth
  split_ifs <;> omega

/-- C5 counterexample: "2020-1-1" is not a strict zero-padded YYYY-MM-DD
date, yet `get_historical_weather` does not return the invalid-format
message for it — it proceeds all the way to the archive fetch (here the
fetch fails, so the fetch-stage fallback comes back). -/
theorem historical_unpadded_date_accepted :
    isStrictYMD "2020-1-1" = false
    ∧ get_historical_weather ⟨2025, 1, 1⟩ "2020-1-1" none
        = .ok "Unable to fetch historical weather data for 2020-1-1." :=
  ⟨rfl, rfl⟩

/-- C5 (amended): date-format validation follows `strptime('%Y-%m-%d')` — a
four-digit year and one-or-two-digit month and day forming a valid calendar
date.  Any (ASCII) string failing that parse gets the invalid-format message
with no network call; any string passing it is never given the
invalid-format message; and every strict zero-padded YYYY-MM-DD calendar
date passes. -/
theorem historical_format_validation (today : PyDate) (date : String)
    (_hascii : date.data.all (fun ch => ch.toNat < 128) = true) :
    (strptimeYMD date = none →
      ∀ fetch, get_historical_weather today date fetch
        = .ok "Invalid date format. Please use YYYY-MM-DD format.")
    ∧ ((strptimeYMD date).isSome = true →
      historicalPreflight today date ≠ some "Invalid date format. Please use YYYY-MM-DD format.")
    ∧ (isStrictYMD date = true → (strptimeYMD date).isSome = true) := by
  refine ⟨fun hnone fetch => ?_, fun hsome => ?_, fun hstrict => ?_⟩
  · unfold get_historical_weather historicalPreflight
    rw [hnone]
  · obtain ⟨d, hd⟩ := Option.isSome_iff_exists.mp hsome
    cases hle : PyDate.le today d <;> simp [historicalPreflight, hd, hle]
  · unfold isStrictYMD at hstrict
    unfold strptimeYMD
    rcases hsplit : splitDash date.data with _ | ⟨ys, rest1⟩
    · rw [hsplit] at hstrict
      exact absurd hstrict (by simp)
    rcases rest1 with _ | ⟨ms, rest2⟩
    · rw [hsplit] at hstrict
      exact absurd hstrict (by simp)
    rcases rest2 with _ | ⟨ds, rest3⟩
    · rw [hsplit] at hstrict
      exact absurd hstrict (by simp)
    rcases rest3 with _ | ⟨r, rest4⟩
    · rw [hsplit] at hstrict
      simp only [Bool.and_eq_true, decide_eq_true_eq] at hstrict
      obtain ⟨⟨⟨⟨⟨⟨⟨⟨⟨⟨hy4, hm2⟩, hd2⟩, hyd⟩, hmd⟩, hdd⟩, hy1⟩, hm1⟩, hm12⟩, hd1⟩, hdim⟩ := hstrict
      have hmy : matchYear ys = some (charsToNat ys) := by
        unfold matchYear
        simp [hy4, hyd]
      have hmm : matchMD ms 12 = some (charsToNat ms) := by
        unfold matchMD
        simp [hm2, hmd, hm1, hm12]
      have hmd31 : matchMD ds 31 = some (charsToNat ds) := by
        unfold matchMD
        have hle31 : charsToNat ds ≤ 31 := le_trans hdim (daysInMonth_le_31 _ _)
        simp [hd2, hdd, hd1, hle31]
      simp only [hmy, hmm, hmd31]
      simp [hy1, hdim]
    · rw [hsplit] at hstrict
      exact absurd hstrict (by simp)

theorem historical_format_validation_witness :
    get_historical_weather ⟨2025, 1, 1⟩ "not-a-date" none
      = .ok "Invalid date format. Please use YYYY-MM-DD format." :=
  (historical_format_validation ⟨2025, 1, 1⟩ "not-a-date" (by decide)).1 (by decide) none

/-- C6: for a well-formed (strptime-parseable) date, `get_historical_weather`
returns the fixed past-dates-only message — independently of any fetch, i.e.
without a network call — exactly when the date is today or later, and for a
date strictly before today it proceeds to the archive-fetch stage
(`historicalFormat`). -/
theorem historical_past_date_gate (today d : PyDate) (date : String)
    (hparse : strptimeYMD date = some d) :
    (PyDate.le today d = true →
      ∀ fetch, get_historical_weather today date fetch
        = .ok "Historical weather data is only available for past dates.")
    ∧ (PyDate.le today d = false →
      ∀ fetch, get_historical_weather today date fetch = historicalFormat date fetch) := by
  constructor <;> intro h fetch <;>
    unfold get_historical_weather historicalPreflight <;>
    rw [hparse] <;> simp [h]

theorem historical_past_date_gate_witness :
    get_historical_weather ⟨2020, 1, 1⟩ "2020-01-01" none
      = .ok "Historical weather data is only available for past dates." :=
  (historical_past_date_gate ⟨2020, 1, 1⟩ ⟨2020, 1, 1⟩ "2020-01-01" (by decide)).1 (by decide) none

theorem get_weather_alerts_obj (cur : Json) :
    get_weather_alerts (some (.obj [("current", cur)])) =
    match tempAlerts (cur.get "temperature_2m"),
          windAlerts (cur.get "wind_speed_10m"),
          precipAlerts (cur.get "precipitation") with
    | .ok a1, .ok a2, .ok a3 =>
        let alerts := a1 ++ a2 ++ a3 ++ thunderAlerts (cur.get "weather_code")
        if alerts.isEmpty then .ok "✅ No weather alerts or warnings for this location."
        else .ok ("Weather Alerts:\n" ++ String.intercalate "\n" alerts)
    | .error e, _, _ => .error e
    | _, .error e, _ => .error e
    | _, _, .error e => .error e := rfl

theorem tempAlerts_opt (t : Option Rat) :
    tempAlerts ((t.map Json.num).getD .null) =
    .ok (match t with
         | none => []
         | some q =>
           if 35 ≤ q then ["🔥 HEAT WARNING: Extreme temperature detected"]
           else if q ≤ -20 then ["🥶 COLD WARNING: Extreme cold temperature detected"]
           else []) := by
  cases t <;> simp [tempAlerts, jsonNumVal]

theorem windAlerts_opt (w : Option Rat) :
    windAlerts ((w.map Json.num).getD .null) =
    .ok (match w with
         | none => []
         | some q => if 60 ≤ q then ["💨 WIND WARNING: High wind speeds detected"] else []) := by
  cases w <;> simp [windAlerts, jsonNumVal]

theorem precipAlerts_opt (p : Option Rat) :
    precipAlerts ((p.map Json.num).getD .null) =
    .ok (match p with
         | none => []
         | some q => if 20 ≤ q then ["🌧️ PRECIPITATION WARNING: Heavy precipitation detected"] else []) := by
  cases p <;> simp [precipAlerts, jsonNumVal]

theorem thunderAlerts_opt (c : Option Int) :
    thunderAlerts ((c.map (fun n => Json.num (n : Rat))).getD .null) =
    (match c with
     | none => []
     | some n =>
       if n = 95 ∨ n = 96 ∨ n = 99 then
         ["⛈️ THUNDERSTORM WARNING: Thunderstorm conditions detected"]
       else []) := by
  cases c with
  | none => rfl
  | some n =>
    by_cases h95 : n = 95
    · subst h95; rfl
    by_cases h96 : n = 96
    · subst h96; rfl
    by_cases h99 : n = 99
    · subst h99; rfl
    have hb95 : jsonEqInt (.num (n : Rat)) 95 = false := by
      simp only [jsonEqInt, decide_eq_false_iff_not]
      exact fun hc => h95 (by exact_mod_cast hc)
    have hb96 : jsonEqInt (.num (n : Rat)) 96 = false := by
      simp only [jsonEqInt, decide_eq_false_iff_not]
      exact fun hc => h96 (by exact_mod_cast hc)
    have hb99 : jsonEqInt (.num (n : Rat)) 99 = false := by
      simp only [jsonEqInt, decide_eq_false_iff_not]
      exact fun hc => h99 (by exact_mod_cast hc)
    simp [thunderAlerts, hb95, hb96, hb99, h95, h96, h99]

/-- C7: on a response whose `current` section carries optional numeric
temperature, wind speed and precipitation and an optional integer weather
code, `get_weather_alerts` evaluates each threshold rule independently:
temperature ≥ 35 fires the heat line, otherwise temperature ≤ −20 the cold
line (never both), wind ≥ 60 the wind line, precipitation ≥ 20 the
precipitation line, weather code ∈ {95, 96, 99} the thunderstorm line; the
fixed no-alerts message comes back exactly when no rule fires, otherwise the
fired lines joined under the header. -/
theorem alerts_threshold_rules (t w p : Option Rat) (c : Option Int) :
    get_weather_alerts (some (.obj [("current", .obj
      [("temperature_2m", (t.map Json.num).getD .null),
       ("wind_speed_10m", (w.map Json.num).getD .null),
       ("precipitation", (p.map Json.num).getD .null),
       ("weather_code", (c.map (fun n => Json.num (n : Rat))).getD .null)])])) =
    (
      let fired : List String :=
        (match t with
         | none => []
         | some q =>
           if 35 ≤ q then ["🔥 HEAT WARNING: Extreme temperature detected"]
           else if q ≤ -20 then ["🥶 COLD WARNING: Extreme cold temperature detected"]
           else [])
        ++ (match w with
         | none => []
         | some q => if 60 ≤ q then ["💨 WIND WARNING: High wind speeds detected"] else [])
        ++ (match p with
         | none => []
         | some q => if 20 ≤ q then ["🌧️ PRECIPITATION WARNING: Heavy precipitation detected"] else [])
        ++ (match c with
         | none => []
         | some n =>
           if n = 95 ∨ n = 96 ∨ n = 99 then
             ["⛈️ THUNDERSTORM WARNING: Thunderstorm conditions detected"]
           else []);
      if fired.isEmpty then .ok "✅ No weather alerts or warnings for this location."
      else .ok ("Weather Alerts:\n" ++ String.intercalate "\n" fired)) := by
  rw [get_weather_alerts_obj]
  have g1 : (Json.obj
      [("temperature_2m", (t.map Json.num).getD .null),
       ("wind_speed_10m", (w.map Json.num).getD .null),
       ("precipitation", (p.map Json.num).getD .null),
       ("weather_code", (c.map (fun n => Json.num (n : Rat))).getD .null)]).get "temperature_2m"
      = (t.map Json.num).getD .null := rfl
  have g2 : (Json.obj
      [("temperature_2m", (t.map Json.num).getD .null),
       ("wind_speed_10m", (w.map Json.num).getD .null),
       ("precipitation", (p.map Json.num).getD .null),
       ("weather_code", (c.map (fun n => Json.num (n : Rat))).getD .null)]).get "wind_speed_10m"
      = (w.map Json.num).getD .null := rfl
  have g3 : (Json.obj
      [("temperature_2m", (t.map Json.num).getD .null),
       ("wind_speed_10m", (w.map Json.num).getD .null),
       ("precipitation", (p.map Json.num).getD .null),
       ("weather_code", (c.map (fun n => Json.num (n : Rat))).getD .null)]).get "precipitation"
      = (p.map Json.num).getD .null := rfl
  have g4 : (Json.obj
      [("temperature_2m", (t.map Json.num).getD .null),
       ("wind_speed_10m", (w.map Json.num).getD .null),
       ("precipitation", (p.map Json.num).getD .null),
       ("weather_code", (c.map (fun n => Json.num (n : Rat))).getD .null)]).get "weather_code"
      = (c.map (fun n => Json.num (n : Rat))).getD .null := rfl
  rw [g1, g2, g3, g4, tempAlerts_opt, windAlerts_opt, precipAlerts_opt, thunderAlerts_opt]

/-- C8 counterexample: two responses that agree on the `current` section
(both lack it) and differ only in the `hourly` section produce different
outputs — the empty-object response trips the `if not data` truthiness guard
and yields the fetch-failure fallback, while the non-empty one proceeds to
the no-alerts message. -/
theorem alerts_hourly_counterexample :
    Json.find (.obj []) "current" = Json.find (.obj [("hourly", .obj [])]) "current"
    ∧ get_weather_alerts (some (.obj []))
        = .ok "Unable to fetch weather alert data for this location."
    ∧ get_weather_alerts (some (.obj [("hourly", .obj [])]))
        = .ok "✅ No weather alerts or warnings for this location."
    ∧ get_weather_alerts (some (.obj []))
        ≠ get_weather_alerts (some (.obj [("hourly", .obj [])])) := by
  refine ⟨rfl, rfl, rfl, fun h => ?_⟩
  have h2 : (Except.ok "Unable to fetch weather alert data for this location." :
      Except PyErr String) = .ok "✅ No weather alerts or warnings for this location." := h
  exact absurd (Except.ok.inj h2) (by decide)

/-- C8 (amended): for any two non-empty object responses that agree on the
`current` section but differ arbitrarily elsewhere — in particular in the
`hourly` section, which `get_weather_alerts` requests but never reads — the
tool returns the identical output.  (Non-emptiness is required because the
`if not data` guard sends the empty object to the fetch-failure fallback.) -/
theorem alerts_ignore_hourly (f1 f2 : List (String × Json))
    (h1 : f1 ≠ []) (h2 : f2 ≠ [])
    (hcur : Json.find (.obj f1) "current" = Json.find (.obj f2) "current") :
    get_weather_alerts (some (.obj f1)) = get_weather_alerts (some (.obj f2)) := by
  unfold get_weather_alerts
  have e1 : fetchFalsy (some (.obj f1)) = false := by
    simp [fetchFalsy, Json.truthy, h1]
  have e2 : fetchFalsy (some (.obj f2)) = false := by
    simp [fetchFalsy, Json.truthy, h2]
  rw [e1, e2]
  have ecur : (Json.obj f1).getD "current" (.obj []) = (Json.obj f2).getD "current" (.obj []) := by
    unfold Json.getD
    rw [hcur]
  simp only [Option.getD_some, ecur]

theorem alerts_ignore_hourly_witness :
    get_weather_alerts (some (.obj [("current", .obj [("temperature_2m", .num 20)])]))
      = get_weather_alerts (some (.obj [("current", .obj [("temperature_2m", .num 20)]),
                                        ("hourly", .obj [("temperature_2m", .arr [.num 40])])])) :=
  alerts_ignore_hourly
    [("current", .obj [("temperature_2m", .num 20)])]
    [("current", .obj [("temperature_2m", .num 20)]),
     ("hourly", .obj [("temperature_2m", .arr [.num 40])])]
    (List.cons_ne_nil _ _) (List.cons_ne_nil _ _) rfl

theorem clampDays_idem (days : Int) : clampDays (clampDays days) = clampDays days := by
  unfold clampDays
  omega

/-- C9: `get_weather_forecast` clamps its integer `days` argument into
[1, 16] before using it: the clamp is bounded by 1 and 16, sends 0 to 1, 30
to 16 and 5 to 5, leaves any value already in [1, 16] unchanged, and the
tool's behaviour on `days` coincides with its behaviour on the clamped
value for every fetch result. -/
theorem forecast_days_clamped (days : Int) :
    1 ≤ clampDays days ∧ clampDays days ≤ 16
    ∧ clampDays 0 = 1 ∧ clampDays 30 = 16 ∧ clampDays 5 = 5
    ∧ (1 ≤ days → days ≤ 16 → clampDays days = days)
    ∧ (∀ fetch, get_weather_forecast days fetch = get_weather_forecast (clampDays days) fetch) := by
  refine ⟨?_, ?_, rfl, rfl, rfl, ?_, fun fetch => ?_⟩
  · unfold clampDays
    omega
  · unfold clampDays
    omega
  · intro hlo hhi
    unfold clampDays
    omega
  · unfold get_weather_forecast
    rw [clampDays_idem]

theorem forecast_days_clamped_witness : clampDays 7 = 7 :=
  (forecast_days_clamped 7).2.2.2.2.2.1 (by decide) (by decide)

/-- C10: a geocoding match in a non-empty result list whose `latitude` (or
`longitude`) field is absent has the missing coordinate defaulted to the
number 0 — `result.get('latitude', 0)` — and rendered through the `.4f`
format as "0.0000", exactly as a genuine coordinate of 0 would be: the
output is identical to that for the same match carrying an explicit 0, with
no placeholder and no failure. -/
theorem search_missing_coordinate_defaults (name country : String) (q : Rat) (query : String) :
    search_locations query (some (.obj [("results", .arr
      [.obj [("name", .str name), ("country", .str country), ("longitude", .num q)]])]))
      = .ok ("Found locations:\n" ++
          (name ++ ", " ++ country ++ " (Lat: " ++ "0.0000" ++ ", Lon: " ++ format4 q ++ ")"))
    ∧ search_locations query (some (.obj [("results", .arr
      [.obj [("name", .str name), ("country", .str country), ("longitude", .num q)]])]))
      = search_locations query (some (.obj [("results", .arr
      [.obj [("name", .str name), ("country", .str country), ("latitude", .num 0), ("longitude", .num q)]])]))
    ∧ search_locations query (some (.obj [("results", .arr
      [.obj [("name", .str name), ("country", .str country), ("latitude", .num q)]])]))
      = .ok ("Found locations:\n" ++
          (name ++ ", " ++ country ++ " (Lat: " ++ format4 q ++ ", Lon: " ++ "0.0000" ++ ")"))
    ∧ format4 0 = "0.0000" := by
  refine ⟨by rfl, rfl, by rfl, rfl⟩
